import Mathlib

/-!
Verification development for the tuya-cloud-mqtt-bridge repository
(single source file `bridge.py`).

The development shallowly embeds the pieces of `bridge.py` that carry the
logic under scrutiny:

* a JSON-like value type `JVal` standing for parsed Python/JSON data;
* the property extractors `pick_boolean` and `pick_battery`;
* the poll-loop state machine of `main` (`tick`, `loopIter`, `runLoop`),
  including the `try/except` around the loop body: an iteration whose
  fetch raises is caught by the except arm, which only logs;
* the Tuya v2 request signer of `TuyaOpenAPI._request`
  (query canonicalisation, string-to-sign, HMAC message assembly);
* the request/refresh/retry control flow of `TuyaOpenAPI._request`
  and `TuyaOpenAPI.connect`, with the HTTP transport modelled as an
  oracle of outcomes and Python dynamic-type faults modelled in
  `Except String`.

Hash primitives (SHA-256, HMAC-SHA256) are external library calls in the
source; the signer is parameterised over them, so every theorem about the
signer holds for any choice of those primitives.
-/

/-- JSON-like values as produced by `resp.json()` in Python.
Python distinguishes `bool`, `int` and `float`; JSON floats are carried
as rationals (every JSON literal is exactly representable). -/
inductive JVal : Type where
  | jnull : JVal
  | jbool (b : Bool) : JVal
  | jint (n : Int) : JVal
  | jfloat (q : ℚ) : JVal
  | jstr (s : String) : JVal
  | jarr (items : List JVal) : JVal
  | jobj (fields : List (String × JVal)) : JVal

/-- Python `isinstance(v, dict)`. -/
def JVal.isDict : JVal → Bool
  | .jobj _ => true
  | _ => false

/-- Python `d.get(key)` on a dict; `none` when the receiver is not a dict
(call sites in the source guard with `isinstance(..., dict)` first). -/
def JVal.get : JVal → String → Option JVal
  | .jobj fields, key => fields.lookup key
  | _, _ => none

/-- Python truthiness of a JSON value. -/
def JVal.truthy : JVal → Bool
  | .jnull => false
  | .jbool b => b
  | .jint n => n != 0
  | .jfloat q => q != 0
  | .jstr s => s != ""
  | .jarr items => !items.isEmpty
  | .jobj fields => !fields.isEmpty

/-- Truthiness of an optional value (`d.get(k)` may give `None`). -/
def pyTruthy? : Option JVal → Bool
  | some v => v.truthy
  | none => false

/-- Python `v == m` for an integer literal `m`
(`True == 1`, `1010.0 == 1010` hold in Python). -/
def JVal.pyEqInt : JVal → Int → Bool
  | .jbool b, m => (if b then (1 : Int) else 0) == m
  | .jint n, m => n == m
  | .jfloat q, m => q == (m : ℚ)
  | _, _ => false

/-- `data.get(k) == m` where the left side may be `None`. -/
def pyEqIntOpt : Option JVal → Int → Bool
  | some v, m => v.pyEqInt m
  | none, _ => false

/-- Python `isinstance(v, (bool, int))`. -/
def JVal.isBoolOrInt : JVal → Bool
  | .jbool _ => true
  | .jint _ => true
  | _ => false

/-- Python `isinstance(v, (int, float))`; `bool` is a subclass of `int`. -/
def JVal.isNumeric : JVal → Bool
  | .jbool _ => true
  | .jint _ => true
  | .jfloat _ => true
  | _ => false

/-- Python `bool(v)` on a bool-or-int value (nonzero is true). -/
def JVal.pyBool : JVal → Bool
  | .jbool b => b
  | .jint n => n != 0
  | _ => false

/-- Truncation toward zero, as Python `int()` on a float. -/
def ratTrunc (q : ℚ) : Int :=
  if 0 ≤ q then ⌊q⌋ else ⌈q⌉

/-- Python `int(v)` on a numeric value. -/
def JVal.pyInt : JVal → Int
  | .jbool b => if b then 1 else 0
  | .jint n => n
  | .jfloat q => ratTrunc q
  | _ => 0

/-- Whitespace characters stripped by Python `str.strip()` (ASCII range). -/
def isPySpace (c : Char) : Bool :=
  c == ' ' || c == '\t' || c == '\n' || c == '\r' ||
  c == Char.ofNat 11 || c == Char.ofNat 12

/-- Python `str.strip()`. -/
def pyStrip (s : String) : String :=
  (((s.data.dropWhile isPySpace).reverse.dropWhile isPySpace).reverse).asString

/-- ASCII lower-casing of one character. -/
def pyLowerChar (c : Char) : Char :=
  if 'A' ≤ c ∧ c ≤ 'Z' then Char.ofNat (c.toNat + 32) else c

/-- Python `str.lower()` (ASCII range, which covers the fixed keyword table). -/
def pyLower (s : String) : String :=
  (s.data.map pyLowerChar).asString

/-- ASCII upper-casing of one character. -/
def pyUpperChar (c : Char) : Char :=
  if 'a' ≤ c ∧ c ≤ 'z' then Char.ofNat (c.toNat - 32) else c

/-- Python `str.upper()` (ASCII range, which covers HTTP method names). -/
def pyUpper (s : String) : String :=
  (s.data.map pyUpperChar).asString

/-- A property snapshot: the `by_code` dict from vendor code to raw value. -/
abbrev Snapshot := List (String × JVal)

/-- The fixed contact-code priority list of `pick_boolean` (source order). -/
def contactCodes : List String :=
  ["doorcontact_state", "contact_state", "contact", "door", "open", "switch_1", "switch"]

/-- The loop of `pick_boolean`: first key present with a bool-or-int value
wins; a present key with a value of another type is skipped. -/
def pickBooleanFrom (byCode : Snapshot) : List String → Option Bool
  | [] => none
  | k :: ks =>
    match byCode.lookup k with
    | some v => if v.isBoolOrInt then some v.pyBool else pickBooleanFrom byCode ks
    | none => pickBooleanFrom byCode ks

/-- `pick_boolean` from `bridge.py`. -/
def pick_boolean (byCode : Snapshot) : Option Bool :=
  pickBooleanFrom byCode contactCodes

/-- The categorical map of `pick_battery`:
`{"low": 20, "middle": 60, "medium": 60, "high": 100}.get(s)`. -/
def batteryWordMap (s : String) : Option Int :=
  if s = "low" then some 20
  else if s = "middle" then some 60
  else if s = "medium" then some 60
  else if s = "high" then some 100
  else none

/-- Third clause of `pick_battery`: a string-valued `battery_state`,
stripped, lower-cased and mapped through `batteryWordMap`. -/
def pickBatteryState (byCode : Snapshot) : Option Int :=
  match byCode.lookup "battery_state" with
  | some (.jstr s) => batteryWordMap (pyLower (pyStrip s))
  | _ => none

/-- Second clause of `pick_battery`: a numeric `battery` value. -/
def pickBatteryPlain (byCode : Snapshot) : Option Int :=
  match byCode.lookup "battery" with
  | some v => if v.isNumeric then some v.pyInt else pickBatteryState byCode
  | none => pickBatteryState byCode

/-- `pick_battery` from `bridge.py`. -/
def pick_battery (byCode : Snapshot) : Option Int :=
  match byCode.lookup "battery_percentage" with
  | some v => if v.isNumeric then some v.pyInt else pickBatteryPlain byCode
  | none => pickBatteryPlain byCode

/-- Reference contact resolution, following the wording of the spec:
scan the fixed priority list, the first code present whose value is
boolean-or-integer-like wins, integers coerce through nonzero-is-true,
absence of all candidates yields absent. -/
def contactOfSpec (byCode : Snapshot) : Option Bool :=
  (contactCodes.find? fun k =>
      match byCode.lookup k with
      | some v => v.isBoolOrInt
      | none => false).bind
    fun k => (byCode.lookup k).map JVal.pyBool

/-- A numeric value at a key, truncated to integer, else absent. -/
def numericAt (byCode : Snapshot) (k : String) : Option Int :=
  match byCode.lookup k with
  | some v => if v.isNumeric then some v.pyInt else none
  | none => none

/-- Reference battery resolution, following the wording of the spec:
(a) numeric `battery_percentage` truncated, else (b) numeric `battery`
truncated, else (c) string `battery_state` trimmed and case-folded then
mapped through the fixed table; otherwise absent. -/
def batteryOfSpec (byCode : Snapshot) : Option Int :=
  (numericAt byCode "battery_percentage").orElse fun _ =>
    (numericAt byCode "battery").orElse fun _ =>
      pickBatteryState byCode

/-- Events published to MQTT by the poll loop (payload per topic). -/
inductive Pub : Type where
  | avail (payload : String) : Pub
  | state (payload : String) : Pub
  | battery (payload : String) : Pub
deriving DecidableEq

/-- Is this an availability-topic publish? -/
def Pub.isAvail : Pub → Bool
  | .avail _ => true
  | _ => false

/-- The mutable loop state of `main`: `last_ok` and `avail_state`.
`availOnline = true` stands for `avail_state == "online"`. -/
structure LoopState : Type where
  lastOk : Nat
  availOnline : Bool
deriving DecidableEq

/-- `OFFLINE_AFTER = 300` from `bridge.py`. -/
def OFFLINE_AFTER : Nat := 300

/-- The availability publish of the non-empty branch:
emitted only when the previous state was not online. -/
def availabilityPubs (st : LoopState) : List Pub :=
  if st.availOnline then [] else [Pub.avail "online"]

/-- The contact publish: `"ON"`/`"OFF"` when `pick_boolean` finds a value. -/
def contactPubs (byCode : Snapshot) : List Pub :=
  match pick_boolean byCode with
  | some b => [Pub.state (if b then "ON" else "OFF")]
  | none => []

/-- The battery publish: the bare decimal string when `pick_battery` finds a value. -/
def batteryPubs (byCode : Snapshot) : List Pub :=
  match pick_battery byCode with
  | some n => [Pub.battery (toString n)]
  | none => []

/-- One iteration of the `while True` loop body of `main`, at time `now`:
on a non-empty snapshot, reset `last_ok`, flip to online (publishing only
on the edge), then publish whatever the extractors find; on an empty
snapshot, flip to offline (publishing once) when the last success is more
than `OFFLINE_AFTER` seconds old. -/
def tick (st : LoopState) (byCode : Snapshot) (now : Nat) : LoopState × List Pub :=
  if byCode.isEmpty then
    if OFFLINE_AFTER < now - st.lastOk ∧ st.availOnline then
      ({ st with availOnline := false }, [Pub.avail "offline"])
    else (st, [])
  else
    ({ lastOk := now, availOnline := true },
      availabilityPubs st ++ contactPubs byCode ++ batteryPubs byCode)

/-- Outcome of the fetch at the top of one loop iteration:
`fetch_shadow_v2` returned a (possibly empty) code map, or the fetch
raised — for instance the `AttributeError` from a success response whose
`result` is not a dict, or the same fault out of `connect` during a 1010
refresh — and the bare `except` arm caught it. -/
inductive TickResult : Type where
  | fetched (byCode : Snapshot) : TickResult
  | raised : TickResult

/-- Did this iteration obtain a non-empty snapshot? -/
def TickResult.gotData : TickResult → Bool
  | .fetched byCode => !byCode.isEmpty
  | .raised => false

/-- Did the fetch of this iteration raise? -/
def TickResult.isRaised : TickResult → Bool
  | .fetched _ => false
  | .raised => true

/-- One full iteration of the `while True` body including the
`try/except`: the fetch is the first statement of the `try` block, so a
raising fetch reaches the except arm before any state change — state
untouched, nothing published, and the offline-timer check skipped. -/
def loopIter (st : LoopState) (r : TickResult) (now : Nat) : LoopState × List Pub :=
  match r with
  | .fetched byCode => tick st byCode now
  | .raised => (st, [])

/-- Run a sequence of loop iterations, each given as (fetch outcome, time). -/
def runLoop : LoopState → List (TickResult × Nat) → LoopState × List Pub
  | st, [] => (st, [])
  | st, (r, t) :: rest =>
    let step := loopIter st r t
    let res := runLoop step.1 rest
    (res.1, step.2 ++ res.2)

/-- The state right before the loop starts: `last_ok = time.time()`,
`avail_state = "online"` (published once before the first poll). -/
def initState (t0 : Nat) : LoopState :=
  { lastOk := t0, availOnline := true }

/-- The time of the last data-bearing iteration in a trace, or the start time. -/
def lastDataTime (t0 : Nat) (trace : List (TickResult × Nat)) : Nat :=
  trace.foldl (fun acc e => if e.1.gotData then e.2 else acc) t0

/-- The `result.properties` access of `fetch_shadow_v2` (line 176 of
`bridge.py`): `sh.get("result", {}).get("properties", [])`, guarded by
`isinstance(sh, dict) and sh.get("success")`. On a success dict whose
`result` is present and not a dict, the inner `.get` raises. -/
def shadowPropsAccess (sh : JVal) : Except String (Option JVal) :=
  if sh.isDict ∧ pyTruthy? (sh.get "success") then
    match (sh.get "result").getD (.jobj []) with
    | .jobj fields => .ok (some ((fields.lookup "properties").getD (.jarr [])))
    | _ => .error "AttributeError"
  else .ok none

/-- Values the source passes as query parameters (`str(v)` is applied
before sorting); only integers and strings occur. -/
inductive PyPrim : Type where
  | pint (n : Int) : PyPrim
  | pstr (s : String) : PyPrim
deriving DecidableEq

/-- Python `str(v)` for the parameter values above. -/
def PyPrim.str : PyPrim → String
  | .pint n => toString n
  | .pstr s => s

/-- Upper-case hexadecimal digit. -/
def hexUpperDigit (n : Nat) : Char :=
  if n < 10 then Char.ofNat (48 + n) else Char.ofNat (65 + (n - 10))

/-- Bytes that `urllib.parse.quote_plus` leaves unescaped
(letters, digits, underscore, dot, dash, tilde). -/
def alwaysSafeByte (b : UInt8) : Bool :=
  (65 ≤ b.toNat && b.toNat ≤ 90) || (97 ≤ b.toNat && b.toNat ≤ 122) ||
  (48 ≤ b.toNat && b.toNat ≤ 57) ||
  b.toNat == 95 || b.toNat == 46 || b.toNat == 45 || b.toNat == 126

/-- `quote_plus` on one UTF-8 byte: safe bytes kept, space to `+`,
everything else percent-escaped in upper-case hex. -/
def quotePlusByte (b : UInt8) : String :=
  if alwaysSafeByte b then String.singleton (Char.ofNat b.toNat)
  else if b.toNat == 32 then "+"
  else "%" ++ String.singleton (hexUpperDigit (b.toNat / 16))
        ++ String.singleton (hexUpperDigit (b.toNat % 16))

/-- `urllib.parse.quote_plus` over the UTF-8 encoding of a string. -/
def quotePlus (s : String) : String :=
  String.join (s.toUTF8.toList.map quotePlusByte)

/-- The order Python `sorted` uses on the `(key, str(value))` tuples:
lexicographic on the pair, code-point order on each component. -/
def pairLE (a b : String × String) : Prop :=
  a.1 < b.1 ∨ (a.1 = b.1 ∧ a.2 ≤ b.2)

instance : DecidableRel pairLE :=
  fun a b => inferInstanceAs (Decidable (_ ∨ _))

instance : IsTotal (String × String) pairLE :=
  ⟨fun a b => by
    rcases lt_trichotomy a.1 b.1 with h | h | h
    · exact Or.inl (Or.inl h)
    · rcases le_total a.2 b.2 with h2 | h2
      · exact Or.inl (Or.inr ⟨h, h2⟩)
      · exact Or.inr (Or.inr ⟨h.symm, h2⟩)
    · exact Or.inr (Or.inl h)⟩

instance : IsTrans (String × String) pairLE :=
  ⟨fun a b c hab hbc => by
    rcases hab with hab | ⟨hab, hab2⟩
    · rcases hbc with hbc | ⟨hbc, _⟩
      · exact Or.inl (hab.trans hbc)
      · exact Or.inl (hbc ▸ hab)
    · rcases hbc with hbc | ⟨hbc, hbc2⟩
      · exact Or.inl (hab ▸ hbc)
      · exact Or.inr ⟨hab.trans hbc, hab2.trans hbc2⟩⟩

instance : IsAntisymm (String × String) pairLE :=
  ⟨fun a b hab hba => by
    rcases hab with hab | ⟨hab, hab2⟩
    · rcases hba with hba | ⟨hba, _⟩
      · exact absurd (hab.trans hba) (lt_irrefl _)
      · exact absurd hab (hba ▸ lt_irrefl _)
    · rcases hba with hba | ⟨_, hba2⟩
      · exact absurd hba (hab ▸ lt_irrefl _)
      · exact Prod.ext hab (le_antisymm hab2 hba2)⟩

/-- Python `sorted` on `(key, value)` string pairs. -/
def pySortedPairs (l : List (String × String)) : List (String × String) :=
  List.insertionSort pairLE l

/-- `urlencode` applied to an already sorted pair list:
`key=value` pairs, each component quoted, joined by `&`. -/
def urlencodePairs (pairs : List (String × String)) : String :=
  String.intercalate "&" (pairs.map fun kv => quotePlus kv.1 ++ "=" ++ quotePlus kv.2)

/-- The query string of `_request`:
`urlencode(sorted([(k, str(v)) for k, v in params.items()])) if params else ""`. -/
def buildQuery (params : List (String × PyPrim)) : String :=
  if params.isEmpty then ""
  else urlencodePairs (pySortedPairs (params.map fun kv => (kv.1, kv.2.str)))

/-- The leading-slash normalisation of `_request`. -/
def pyAddSlash (path : String) : String :=
  match path.data with
  | '/' :: _ => path
  | _ => "/" ++ path

/-- `full_path` of `_request`: the normalised path, with `?` and the
canonical query appended when the query is non-empty. -/
def buildFullPath (path : String) (params : List (String × PyPrim)) : String :=
  let p := pyAddSlash path
  let qs := buildQuery params
  if qs.isEmpty then p else p ++ "?" ++ qs

/-- `body_str` of `_request`: empty for GET or bodyless requests, the
serialised JSON body otherwise (the body is carried already serialised,
`json.dumps` being a library call). -/
def bodyString (method : String) (body : Option String) : String :=
  if method = "GET" ∨ body = none then "" else body.getD ""

/-- Python truthiness of the optionally held token string. -/
def strTruthy : Option String → Bool
  | some s => s != ""
  | none => false

/-- `string_to_sign` of `_request`: method, body hash, blank headers line,
full path, joined by newlines. -/
def stringToSign (sha256hex : String → String) (method bodyStr fullPath : String) : String :=
  method ++ "\n" ++ sha256hex bodyStr ++ "\n" ++ "\n" ++ fullPath

/-- The HMAC input of `_request`: the token is inserted between client id
and timestamp exactly when `use_token` holds and a (truthy) token is held. -/
def signMessage (clientId : String) (useToken : Bool) (token : Option String)
    (t nonce s2s : String) : String :=
  if useToken ∧ strTruthy token then
    clientId ++ token.getD "" ++ t ++ nonce ++ s2s
  else
    clientId ++ t ++ nonce ++ s2s

/-- The signature computed by `_request` (lines 41 to 63 of `bridge.py`),
parameterised over the hash primitives: upper-case hex HMAC-SHA256 of the
assembled message under the client secret. -/
def requestSignature (sha256hex : String → String)
    (hmacSha256hex : String → String → String)
    (clientId clientSecret : String) (method path : String)
    (params : List (String × PyPrim)) (body : Option String)
    (t nonce : String) (useToken : Bool) (token : Option String) : String :=
  let m := pyUpper method
  let fullPath := buildFullPath path params
  let bodyStr := bodyString m body
  let s2s := stringToSign sha256hex m bodyStr fullPath
  pyUpper (hmacSha256hex clientSecret (signMessage clientId useToken token t nonce s2s))

/-- Reference signature, following the spec text: `content_hash` is the
hash of the body bytes (the empty string for GET/bodyless requests),
`string_to_sign` is METHOD, content hash, a blank line and the path with
sorted query, the message prepends client id and an optional token segment
(omitted entirely when absent), and the signature is the upper-case hex
HMAC under the client secret. -/
def specSignature (sha256hex : String → String)
    (hmacSha256hex : String → String → String)
    (clientId clientSecret : String) (methodU pathWithSortedQuery : String)
    (body : Option String) (t nonce : String) (token : Option String) : String :=
  let contentHash := sha256hex (if methodU = "GET" ∨ body = none then "" else body.getD "")
  let s2s := methodU ++ "\n" ++ contentHash ++ "\n" ++ "\n" ++ pathWithSortedQuery
  let message :=
    match token with
    | some tok => clientId ++ tok ++ t ++ nonce ++ s2s
    | none => clientId ++ t ++ nonce ++ s2s
  pyUpper (hmacSha256hex clientSecret message)

/-- The headers dict built by `_request` (insertion order). -/
def requestHeaders (clientId sign t nonce : String) (useToken : Bool)
    (token : Option String) (bodyStr : String) : List (String × String) :=
  [("client_id", clientId), ("sign", sign), ("t", t), ("nonce", nonce),
   ("sign_method", "HMAC-SHA256")]
  ++ (if useToken ∧ strTruthy token then [("access_token", token.getD "")] else [])
  ++ (if bodyStr = "" then [] else [("Content-Type", "application/json")])

/-- Outcome of one `requests.get` call: the request raised, or a response
arrived with a status code and a body that either parses as JSON or not. -/
inductive HttpOutcome : Type where
  | netError (msg : String) : HttpOutcome
  | response (status : Int) (jsonBody : Option JVal) (text : String) : HttpOutcome

/-- Lines 77 to 86 of `bridge.py`: a raised request becomes a
`success=False, code=0` dict, an unparseable body becomes a
`success=False, code=status, msg="non-json"` dict, and a parsed body is
returned as is. -/
def handleResponse : HttpOutcome → JVal
  | .netError msg =>
    .jobj [("success", .jbool false), ("code", .jint 0),
           ("msg", .jstr ("HTTP error: " ++ msg))]
  | .response _ (some j) _ => j
  | .response status none text =>
    .jobj [("success", .jbool false), ("code", .jint status),
           ("msg", .jstr "non-json"), ("text", .jstr text)]

/-- The token update inside `connect`:
`tok = data.get('result', {}).get('access_token'); if tok: ...`.
When `result` is present but not a dict, the inner `.get` raises
(`AttributeError` in Python), modelled as `Except.error`. -/
def connectTokenUpdate (tok : Option JVal) (data : JVal) :
    Except String (Option JVal) :=
  if data.isDict ∧ pyTruthy? (data.get "success") then
    match (data.get "result").getD (.jobj []) with
    | .jobj fields =>
      match fields.lookup "access_token" with
      | some t => .ok (if t.truthy then some t else tok)
      | none => .ok tok
    | _ => .error "AttributeError"
  else .ok tok

/-- Does the `result` access inside `connect` stay within dict territory?
True whenever the branch is not taken, or `result` is absent or a dict. -/
def resultWellFormed (data : JVal) : Bool :=
  if data.isDict ∧ pyTruthy? (data.get "success") then
    match (data.get "result").getD (.jobj []) with
    | .jobj _ => true
    | _ => false
  else true

/-- The token the refresh stores, when it stores one: the response is a
dict with truthy `success` and a truthy `result.access_token`. -/
def successTokenOf (data : JVal) : Option JVal :=
  if data.isDict ∧ pyTruthy? (data.get "success") then
    match (data.get "result").getD (.jobj []) with
    | .jobj fields =>
      match fields.lookup "access_token" with
      | some t => if t.truthy then some t else none
      | none => none
    | _ => none
  else none

/-- The held token after a refresh that saw response `c`. -/
def tokenAfterConnect (tok : Option JVal) (c : JVal) : Option JVal :=
  match successTokenOf c with
  | some t => some t
  | none => tok

/-- The success test `_request` applies to the refresh response:
`isinstance(c, dict) and c.get('success')`. -/
def connectSucceeded (c : JVal) : Bool :=
  c.isDict && pyTruthy? (c.get "success")

/-- `connect` as a state transformer on the held token, applied to the
(already converted) response `data`: mutates the token per
`connectTokenUpdate` and returns `data` itself. -/
def connectOp (tok : Option JVal) (data : JVal) :
    Except String (Option JVal × JVal) :=
  match connectTokenUpdate tok data with
  | .ok tok2 => .ok (tok2, data)
  | .error e => .error e

/-- One recorded HTTP call: the path requested and the `use_token` flag
in force (the flag also decides whether the token joins the signature and
headers). -/
structure CallRec : Type where
  path : String
  useToken : Bool
deriving DecidableEq

/-- The token endpoint used by `connect`. -/
def tokenEndpoint : String := "/v1.0/token"

/-- A single non-recursing `_request` exchange (covers `use_token=False`
and `retry=False` invocations, whose refresh branch cannot fire):
returns the converted response, the next oracle index and the call made. -/
def requestOnce (oracle : Nat → HttpOutcome) (k : Nat) (path : String)
    (useToken : Bool) : JVal × Nat × List CallRec :=
  (handleResponse (oracle k), k + 1, [⟨path, useToken⟩])

/-- `connect`: one unauthenticated `_request` against the token endpoint,
then the token update; returns new token, response, next index, trace. -/
def connectRun (oracle : Nat → HttpOutcome) (k : Nat) (tok : Option JVal) :
    Except String (Option JVal × JVal × Nat × List CallRec) :=
  let r := requestOnce oracle k tokenEndpoint false
  match connectTokenUpdate tok r.1 with
  | .ok tok2 => .ok (tok2, r.1, r.2.1, r.2.2)
  | .error e => .error e

/-- `_request` with arbitrary flags. The refresh branch fires exactly when
`use_token` holds, the converted response is a dict whose `code` equals
1010, and `retry` holds; it then runs `connect` once and, only on a
successful refresh, repeats the original request once with `retry=False`.
Both nested invocations are non-recursing, so the depth is bounded by
construction, mirroring the bound in the source. -/
def pyRequest (oracle : Nat → HttpOutcome) (k : Nat) (tok : Option JVal)
    (path : String) (useToken retryFlag : Bool) :
    Except String (Option JVal × JVal × Nat × List CallRec) :=
  let data := handleResponse (oracle k)
  if useToken ∧ data.isDict ∧ pyEqIntOpt (data.get "code") 1010 ∧ retryFlag then
    match connectRun oracle (k + 1) tok with
    | .error e => .error e
    | .ok (tok2, c, k2, tr2) =>
      if connectSucceeded c then
        let r2 := requestOnce oracle k2 path true
        .ok (tok2, r2.1, r2.2.1, ⟨path, useToken⟩ :: tr2 ++ r2.2.2)
      else
        .ok (tok2, data, k2, ⟨path, useToken⟩ :: tr2)
  else
    .ok (tok, data, k + 1, [⟨path, useToken⟩])

/-- `get(path)`: an authenticated `_request` with `retry=True`. -/
def apiGet (oracle : Nat → HttpOutcome) (tok : Option JVal) (path : String) :
    Except String (Option JVal × JVal × Nat × List CallRec) :=
  pyRequest oracle 0 tok path true true

/-- A transport-level failure: the request raised, or the body was not JSON. -/
def isFailureOutcome : HttpOutcome → Bool
  | .netError _ => true
  | .response _ none _ => true
  | .response _ (some _) _ => false

/-- The uniform failure shape claimed for converted transport failures. -/
def failureShaped (d : JVal) : Prop :=
  d.get "success" = some (.jbool false)
  ∧ (d.get "code").isSome = true
  ∧ (d.get "msg").isSome = true

/-- Oracle for the refresh type-fault scenario: first response is a
token-invalid dict, the refresh response reports success but carries a
non-dict `result`. -/
def faultyRefreshOracle : Nat → HttpOutcome
  | 0 => .response 200 (some (.jobj [("code", .jint 1010)])) ""
  | 1 => .response 200 (some (.jobj [("success", .jbool true), ("result", .jint 5)])) ""
  | _ => .netError "unreachable"

/-- Oracle where every call fails at transport level. -/
def allFailOracle : Nat → HttpOutcome :=
  fun _ => .netError "connection refused"

/-- Oracle for a successful refresh-and-retry: token-invalid response,
then a well-formed success response carrying a token, then data. -/
def goodRefreshOracle : Nat → HttpOutcome
  | 0 => .response 200 (some (.jobj [("success", .jbool false), ("code", .jint 1010)])) ""
  | 1 => .response 200
      (some (.jobj [("success", .jbool true),
                    ("result", .jobj [("access_token", .jstr "tok2")])])) ""
  | _ => .response 200 (some (.jobj [("success", .jbool true), ("code", .jint 0)])) ""

theorem pickBooleanFrom_eq_find (byCode : Snapshot) :
    ∀ codes : List String,
      pickBooleanFrom byCode codes =
        (codes.find? fun k =>
            match byCode.lookup k with
            | some v => v.isBoolOrInt
            | none => false).bind
          fun k => (byCode.lookup k).map JVal.pyBool
  | [] => rfl
  | k :: ks => by
    rw [List.find?_cons]
    cases h : byCode.lookup k with
    | none =>
      simp only [pickBooleanFrom, h, pickBooleanFrom_eq_find byCode ks]
    | some v =>
      by_cases hv : v.isBoolOrInt
      · simp only [pickBooleanFrom, h, hv, if_pos, cond_true, Option.some_bind,
          Option.map_some']
      · simp only [pickBooleanFrom, h, hv, cond_false,
          pickBooleanFrom_eq_find byCode ks, Bool.false_eq_true, if_false]

theorem contactPubs_filter_avail (byCode : Snapshot) :
    (contactPubs byCode).filter Pub.isAvail = [] := by
  unfold contactPubs
  split <;> rfl

theorem batteryPubs_filter_avail (byCode : Snapshot) :
    (batteryPubs byCode).filter Pub.isAvail = [] := by
  unfold batteryPubs
  split <;> rfl

/-- C5: contact is resolved by scanning the fixed ordered priority list
`[doorcontact_state, contact_state, contact, door, open, switch_1, switch]`;
the first code present whose value is boolean-or-integer-like wins, with
integers coerced via nonzero-is-true; if no candidate code is present with
such a value, contact is absent and the loop publishes no contact state.
In particular `(doorcontact_state := true, switch_1 := false)` resolves
to `true`. -/
theorem contact_priority_resolution :
    (∀ byCode : Snapshot, pick_boolean byCode = contactOfSpec byCode)
    ∧ pick_boolean [("doorcontact_state", JVal.jbool true), ("switch_1", JVal.jbool false)]
        = some true
    ∧ (∀ (byCode : Snapshot) (st : LoopState) (now : Nat) (s : String),
        pick_boolean byCode = none → Pub.state s ∉ (tick st byCode now).2) := by
  refine ⟨fun byCode => pickBooleanFrom_eq_find byCode contactCodes, by decide, ?_⟩
  intro byCode st now s hnone
  unfold tick
  split
  · split <;> simp
  · simp only [List.mem_append, availabilityPubs, contactPubs, batteryPubs, hnone]
    intro hmem
    rcases hmem with (h | h) | h
    · split at h <;> simp_all
    · simp at h
    · split at h <;> simp_all

/-- Witness for C5 at a concrete snapshot with no contact code. -/
theorem contact_priority_resolution_witness :
    pick_boolean [("battery", JVal.jint 5)] = none
    ∧ Pub.state "ON" ∉ (tick ⟨0, true⟩ [("battery", JVal.jint 5)] 10).2 :=
  ⟨by decide, contact_priority_resolution.2.2 _ ⟨0, true⟩ 10 "ON" (by decide)⟩

theorem pick_battery_eq_spec (byCode : Snapshot) :
    pick_battery byCode = batteryOfSpec byCode := by
  unfold pick_battery batteryOfSpec numericAt pickBatteryPlain
  cases h1 : byCode.lookup "battery_percentage" with
  | none =>
    cases h2 : byCode.lookup "battery" with
    | none => simp [Option.orElse]
    | some v => by_cases hv : v.isNumeric <;> simp [hv, Option.orElse]
  | some v =>
    by_cases hv : v.isNumeric
    · simp [hv, Option.orElse]
    · cases h2 : byCode.lookup "battery" with
      | none => simp [hv, Option.orElse]
      | some w => by_cases hw : w.isNumeric <;> simp [hv, hw, Option.orElse]

/-- C6: battery resolves in order: a numeric `battery_percentage`
truncated to integer, else a numeric `battery` truncated to integer, else
a string `battery_state` trimmed and case-folded then mapped through
`low = 20, middle = 60, medium = 60, high = 100`; an unmatched categorical
string, and absence of all three codes, yield absence. In particular
`battery_state = "Low "` gives 20 and `battery_state = "unknown"` gives
absence. -/
theorem battery_resolution_order :
    (∀ byCode : Snapshot, pick_battery byCode = batteryOfSpec byCode)
    ∧ pick_battery [("battery_state", JVal.jstr "Low ")] = some 20
    ∧ pick_battery [("battery_state", JVal.jstr "unknown")] = none :=
  ⟨pick_battery_eq_spec, by decide, by decide⟩

theorem tick_lastOk (st : LoopState) (snap : Snapshot) (now : Nat) :
    (tick st snap now).1.lastOk = if snap.isEmpty then st.lastOk else now := by
  unfold tick
  split
  · rename_i h
    split <;> simp [h]
  · rename_i h
    simp [h]

theorem tick_preserves_inv (st : LoopState) (snap : Snapshot) (now : Nat)
    (h : st.availOnline = false → OFFLINE_AFTER < now - st.lastOk) :
    ((tick st snap now).1.availOnline = true ↔
      now - (tick st snap now).1.lastOk ≤ OFFLINE_AFTER)
    ∧ ((tick st snap now).1.availOnline = false →
        OFFLINE_AFTER < now - (tick st snap now).1.lastOk) := by
  unfold tick
  split
  · split
    · rename_i hc
      refine ⟨?_, fun _ => hc.1⟩
      simp only [Bool.false_eq_true, false_iff, not_le]
      exact hc.1
    · rename_i hc
      cases ha : st.availOnline with
      | true =>
        refine ⟨?_, by simp [ha]⟩
        simp only [ha, true_iff]
        by_contra hlt
        exact hc ⟨lt_of_not_le hlt, ha⟩
      | false =>
        refine ⟨?_, fun _ => h ha⟩
        simp only [ha, Bool.false_eq_true, false_iff, not_le]
        exact h ha
  · simp

theorem loopIter_lastOk (st : LoopState) (r : TickResult) (now : Nat) :
    (loopIter st r now).1.lastOk = if r.gotData then now else st.lastOk := by
  cases r with
  | raised => simp [loopIter, TickResult.gotData]
  | fetched byCode =>
    show (tick st byCode now).1.lastOk = _
    rw [tick_lastOk]
    cases h : byCode.isEmpty <;> simp [TickResult.gotData, h]

theorem loopIter_preserves_inv (st : LoopState) (r : TickResult) (now : Nat)
    (hr : r.isRaised = false)
    (h : st.availOnline = false → OFFLINE_AFTER < now - st.lastOk) :
    ((loopIter st r now).1.availOnline = true ↔
      now - (loopIter st r now).1.lastOk ≤ OFFLINE_AFTER)
    ∧ ((loopIter st r now).1.availOnline = false →
        OFFLINE_AFTER < now - (loopIter st r now).1.lastOk) := by
  cases r with
  | raised => simp [TickResult.isRaised] at hr
  | fetched byCode => exact tick_preserves_inv st byCode now h

theorem runLoop_fst_lastOk :
    ∀ (trace : List (TickResult × Nat)) (st : LoopState),
      (runLoop st trace).1.lastOk
        = trace.foldl (fun acc e => if e.1.gotData then e.2 else acc) st.lastOk
  | [], _ => rfl
  | (r, t) :: rest, st => by
    show (runLoop (loopIter st r t).1 rest).1.lastOk = _
    rw [runLoop_fst_lastOk rest, List.foldl_cons, loopIter_lastOk]

theorem chain_of_le {a b : Nat} {l : List Nat} (hab : a ≤ b)
    (h : List.Chain (· ≤ ·) b l) : List.Chain (· ≤ ·) a l := by
  cases l with
  | nil => exact List.Chain.nil
  | cons x xs =>
    rw [List.chain_cons] at h ⊢
    exact ⟨le_trans hab h.1, h.2⟩

theorem chain_le_all :
    ∀ (trace : List (TickResult × Nat)) (t : Nat),
      List.Chain (· ≤ ·) t (trace.map Prod.snd) → ∀ e ∈ trace, t ≤ e.2
  | [], _, _, e, he => absurd he (List.not_mem_nil e)
  | (r1, t1) :: rest, t, hchain, e, he => by
    rw [List.map_cons, List.chain_cons] at hchain
    rcases List.mem_cons.mp he with rfl | he2
    · exact hchain.1
    · exact le_trans hchain.1 (chain_le_all rest t1 hchain.2 e he2)

theorem foldl_data_ge :
    ∀ (trace : List (TickResult × Nat)) (t0 init : Nat), t0 ≤ init →
      (∀ e ∈ trace, t0 ≤ e.2) →
      t0 ≤ trace.foldl (fun acc e => if e.1.gotData then e.2 else acc) init
  | [], _, _, hi, _ => hi
  | (r1, t1) :: rest, t0, init, hi, hall => by
    rw [List.foldl_cons]
    refine foldl_data_ge rest t0 _ ?_ ?_
    · by_cases hs : r1.gotData <;> simp only [hs, if_true, if_false]
      · exact hall (r1, t1) (List.mem_cons_self _ _)
      · simpa using hi
    · exact fun e he => hall e (List.mem_cons_of_mem _ he)

theorem data_le_foldl :
    ∀ (trace : List (TickResult × Nat)) (t : Nat),
      List.Chain (· ≤ ·) t (trace.map Prod.snd) →
      ∀ e ∈ trace, e.1.gotData = true → ∀ init : Nat,
        e.2 ≤ trace.foldl (fun acc e => if e.1.gotData then e.2 else acc) init
  | [], _, _, e, he, _, _ => absurd he (List.not_mem_nil e)
  | (r1, t1) :: rest, t, hchain, e, he, hdata, init => by
    rw [List.map_cons, List.chain_cons] at hchain
    rw [List.foldl_cons]
    rcases List.mem_cons.mp he with rfl | he2
    · simp only [hdata, if_true]
      exact foldl_data_ge rest t1 t1 le_rfl (chain_le_all rest t1 hchain.2)
    · exact data_le_foldl rest t1 hchain.2 e he2 hdata _

theorem foldl_last_data :
    ∀ (trace : List (TickResult × Nat)) (init : Nat),
      (trace.foldl (fun acc e => if e.1.gotData then e.2 else acc) init = init
        ∧ ∀ e ∈ trace, e.1.gotData = false)
      ∨ (∃ e ∈ trace, e.1.gotData = true
          ∧ trace.foldl (fun acc e => if e.1.gotData then e.2 else acc) init = e.2)
  | [], init => Or.inl ⟨rfl, fun e he => absurd he (List.not_mem_nil e)⟩
  | (r1, t1) :: rest, init => by
    rw [List.foldl_cons]
    by_cases hs : r1.gotData
    · simp only [hs, if_true]
      rcases foldl_last_data rest t1 with ⟨hval, _⟩ | ⟨e, he, hd, hval⟩
      · exact Or.inr ⟨(r1, t1), List.mem_cons_self _ _, hs, hval⟩
      · exact Or.inr ⟨e, List.mem_cons_of_mem _ he, hd, hval⟩
    · simp only [hs, if_false]
      rcases foldl_last_data rest init with ⟨hval, hall⟩ | ⟨e, he, hd, hval⟩
      · refine Or.inl ⟨hval, fun e he => ?_⟩
        rcases List.mem_cons.mp he with rfl | he2
        · simpa using hs
        · exact hall e he2
      · exact Or.inr ⟨e, List.mem_cons_of_mem _ he, hd, hval⟩

theorem runLoop_final_inv :
    ∀ (front : List (TickResult × Nat)) (lastR : TickResult) (lastT : Nat)
      (st : LoopState) (t : Nat),
      List.Chain (· ≤ ·) t ((front ++ [(lastR, lastT)]).map Prod.snd) →
      (∀ e ∈ front ++ [(lastR, lastT)], e.1.isRaised = false) →
      (st.availOnline = false → OFFLINE_AFTER < t - st.lastOk) →
      ((runLoop st (front ++ [(lastR, lastT)])).1.availOnline = true ↔
        lastT - (runLoop st (front ++ [(lastR, lastT)])).1.lastOk ≤ OFFLINE_AFTER)
  | [], lastR, lastT, st, t, hchain, hnr, hinv => by
    rw [List.nil_append, List.map_cons, List.map_nil, List.chain_cons] at hchain
    have hinv2 : st.availOnline = false → OFFLINE_AFTER < lastT - st.lastOk := by
      intro hfalse
      exact lt_of_lt_of_le (hinv hfalse) (Nat.sub_le_sub_right hchain.1 _)
    show ((runLoop (loopIter st lastR lastT).1 []).1.availOnline = true ↔ _)
    exact (loopIter_preserves_inv st lastR lastT
      (hnr (lastR, lastT) (by simp)) hinv2).1
  | (r1, t1) :: front, lastR, lastT, st, t, hchain, hnr, hinv => by
    rw [List.cons_append, List.map_cons, List.chain_cons] at hchain
    have hinv2 : st.availOnline = false → OFFLINE_AFTER < t1 - st.lastOk := by
      intro hfalse
      exact lt_of_lt_of_le (hinv hfalse) (Nat.sub_le_sub_right hchain.1 _)
    show ((runLoop (loopIter st r1 t1).1 (front ++ [(lastR, lastT)])).1.availOnline
        = true ↔ _)
    exact runLoop_final_inv front lastR lastT (loopIter st r1 t1).1 t1 hchain.2
      (fun e he => hnr e (List.mem_cons_of_mem _ he))
      (loopIter_preserves_inv st r1 t1 (hnr (r1, t1) (List.mem_cons_self _ _)) hinv2).2

theorem tick_avail_filter (st : LoopState) (snap : Snapshot) (now : Nat) :
    ((tick st snap now).2.filter Pub.isAvail)
      = if (tick st snap now).1.availOnline = st.availOnline then []
        else [Pub.avail (if (tick st snap now).1.availOnline = true
                then "online" else "offline")] := by
  unfold tick
  split
  · split
    · rename_i hc
      simp [hc.2, Pub.isAvail]
    · simp
  · rw [List.filter_append, List.filter_append,
      contactPubs_filter_avail, batteryPubs_filter_avail]
    cases ha : st.availOnline with
    | true => simp [availabilityPubs, ha]
    | false => simp [availabilityPubs, ha, Pub.isAvail]

/-- C3 (amended): poll-loop availability invariant, for runs in which no
iteration's fetch raises. Starting from the initial state (online,
`last_ok` set at startup), after a monotone-timed raise-free run whose
last iteration happens at `lastT`, the state is online exactly when a
non-empty snapshot arrived within `OFFLINE_AFTER` seconds of `lastT` or
`lastT` is within `OFFLINE_AFTER` of startup. Independent of that
proviso, one iteration publishes on the availability topic exactly when
its state changed (never for an unchanged state), with the payload of the
new state, and `last_ok` moves exactly on iterations that obtained a
non-empty snapshot. The proviso is forced by the counterexample: an
iteration whose fetch raises is caught by the except arm and skips the
offline-timer check, so the state can stay online past `OFFLINE_AFTER`
with no data. -/
theorem availability_invariant_amended :
    (∀ (t0 : Nat) (front : List (TickResult × Nat)) (lastR : TickResult) (lastT : Nat),
      List.Chain (· ≤ ·) t0 ((front ++ [(lastR, lastT)]).map Prod.snd) →
      (∀ e ∈ front ++ [(lastR, lastT)], e.1.isRaised = false) →
      ((runLoop (initState t0) (front ++ [(lastR, lastT)])).1.availOnline = true ↔
        ((∃ e ∈ front ++ [(lastR, lastT)],
            e.1.gotData = true ∧ lastT - e.2 ≤ OFFLINE_AFTER)
          ∨ lastT - t0 ≤ OFFLINE_AFTER)))
    ∧ (∀ (st : LoopState) (r : TickResult) (now : Nat),
        ((loopIter st r now).2.filter Pub.isAvail)
          = if (loopIter st r now).1.availOnline = st.availOnline then []
            else [Pub.avail (if (loopIter st r now).1.availOnline = true
                    then "online" else "offline")])
    ∧ (∀ (st : LoopState) (r : TickResult) (now : Nat),
        (loopIter st r now).1.lastOk = if r.gotData then now else st.lastOk) := by
  refine ⟨?_, ?_, loopIter_lastOk⟩
  · intro t0 front lastR lastT hchain hnr
    have hinv0 : (initState t0).availOnline = false →
        OFFLINE_AFTER < t0 - (initState t0).lastOk := by
      intro h
      simp [initState] at h
    have hmain := runLoop_final_inv front lastR lastT (initState t0) t0 hchain hnr hinv0
    have hlast : (runLoop (initState t0) (front ++ [(lastR, lastT)])).1.lastOk
        = lastDataTime t0 (front ++ [(lastR, lastT)]) := by
      rw [runLoop_fst_lastOk]
      rfl
    rw [hmain, hlast]
    constructor
    · intro hle
      rcases foldl_last_data (front ++ [(lastR, lastT)]) t0 with
        ⟨hval, _⟩ | ⟨e, he, hd, hval⟩
      · right
        rwa [lastDataTime, hval] at hle
      · left
        exact ⟨e, he, hd, by rwa [lastDataTime, hval] at hle⟩
    · intro h
      rcases h with ⟨e, he, hd, hle⟩ | hle
      · have h1 : e.2 ≤ lastDataTime t0 (front ++ [(lastR, lastT)]) :=
          data_le_foldl _ t0 hchain e he hd t0
        exact le_trans (Nat.sub_le_sub_left h1 lastT) hle
      · have h1 : t0 ≤ lastDataTime t0 (front ++ [(lastR, lastT)]) :=
          foldl_data_ge _ t0 t0 le_rfl (chain_le_all _ t0 hchain)
        exact le_trans (Nat.sub_le_sub_left h1 lastT) hle
  · intro st r now
    cases r with
    | raised => simp [loopIter]
    | fetched byCode => exact tick_avail_filter st byCode now

/-- Counterexample to C3 as stated: an iteration whose fetch raises —
realisable with a success response carrying a non-dict `result`, whose
`properties` access raises — is caught by the except arm and skips the
offline-timer check, so 400 seconds after startup with no data ever
obtained the state is still online, where the claimed invariant demands
offline. -/
theorem availability_invariant_counterexample :
    shadowPropsAccess (.jobj [("success", .jbool true), ("result", .jint 5)])
      = .error "AttributeError"
    ∧ List.Chain (· ≤ ·) 0 ([((TickResult.raised), 400)].map Prod.snd)
    ∧ (runLoop (initState 0) [(TickResult.raised, 400)]).1.availOnline = true
    ∧ ¬((∃ e ∈ [(TickResult.raised, 400)],
          e.1.gotData = true ∧ 400 - e.2 ≤ OFFLINE_AFTER)
        ∨ 400 - 0 ≤ OFFLINE_AFTER) :=
  ⟨rfl, by norm_num [List.chain_cons], rfl, by decide⟩

/-- Witness for the amended C3 at a concrete raise-free two-iteration
trace: a successful fetch at time 5 followed by an empty fetch at time
400, starting at time 0, ends offline, matching the invariant. -/
theorem availability_invariant_amended_witness :
    List.Chain (· ≤ ·) 0
      (([(TickResult.fetched [("doorcontact_state", JVal.jbool true)], 5)]
        ++ [(TickResult.fetched [], 400)]).map Prod.snd)
    ∧ (∀ e ∈ [(TickResult.fetched [("doorcontact_state", JVal.jbool true)], 5)]
          ++ [(TickResult.fetched [], 400)], e.1.isRaised = false)
    ∧ ((runLoop (initState 0)
          ([(TickResult.fetched [("doorcontact_state", JVal.jbool true)], 5)]
            ++ [(TickResult.fetched [], 400)])).1.availOnline = true ↔
        ((∃ e ∈ [(TickResult.fetched [("doorcontact_state", JVal.jbool true)], 5)]
              ++ [(TickResult.fetched [], 400)],
            e.1.gotData = true ∧ 400 - e.2 ≤ OFFLINE_AFTER)
          ∨ 400 - 0 ≤ OFFLINE_AFTER)) :=
  ⟨by norm_num [List.chain_cons], by decide,
    availability_invariant_amended.1 0
      [(TickResult.fetched [("doorcontact_state", JVal.jbool true)], 5)]
      (TickResult.fetched []) 400
      (by norm_num [List.chain_cons]) (by decide)⟩


/-- C8: on every non-empty tick the loop publishes the availability edge
(if any), then each value the extractor finds, unconditionally: the data
publishes are a function of the snapshot alone, two consecutive non-empty
ticks with identical extracted values publish identical payloads, and a
missing contact code never blocks the battery publish nor vice versa.
Concretely, `(doorcontact_state := 1, battery_percentage := 87)` from an
online state publishes exactly `state "ON"` then `battery "87"`. -/
theorem publish_unconditional_per_tick :
    (∀ (st : LoopState) (byCode : Snapshot) (now : Nat), byCode.isEmpty = false →
        (tick st byCode now).2
          = availabilityPubs st ++ contactPubs byCode ++ batteryPubs byCode)
    ∧ (∀ (st : LoopState) (s1 s2 : Snapshot) (n1 n2 : Nat),
        st.availOnline = true → s1.isEmpty = false → s2.isEmpty = false →
        pick_boolean s1 = pick_boolean s2 → pick_battery s1 = pick_battery s2 →
        (tick st s1 n1).2 = (tick (tick st s1 n1).1 s2 n2).2)
    ∧ (∀ (st : LoopState) (byCode : Snapshot) (now : Nat) (n : Int),
        st.availOnline = true → byCode.isEmpty = false →
        pick_boolean byCode = none → pick_battery byCode = some n →
        (tick st byCode now).2 = [Pub.battery (toString n)])
    ∧ (∀ (st : LoopState) (byCode : Snapshot) (now : Nat) (b : Bool),
        st.availOnline = true → byCode.isEmpty = false →
        pick_boolean byCode = some b → pick_battery byCode = none →
        (tick st byCode now).2 = [Pub.state (if b then "ON" else "OFF")])
    ∧ (∀ (st : LoopState) (now : Nat), st.availOnline = true →
        (tick st [("doorcontact_state", JVal.jint 1), ("battery_percentage", JVal.jint 87)] now).2
          = [Pub.state "ON", Pub.battery "87"]
        ∧ (tick st [("doorcontact_state", JVal.jint 1), ("battery_percentage", JVal.jint 87)] now).1.availOnline
            = true) := by
  have hbase : ∀ (st : LoopState) (byCode : Snapshot) (now : Nat), byCode.isEmpty = false →
      (tick st byCode now).2
        = availabilityPubs st ++ contactPubs byCode ++ batteryPubs byCode := by
    intro st byCode now h
    unfold tick
    simp [h]
  refine ⟨hbase, ?_, ?_, ?_, ?_⟩
  · intro st s1 s2 n1 n2 ha h1 h2 hpb hpbat
    have hstate : (tick st s1 n1).1.availOnline = true := by
      unfold tick
      simp [h1]
    rw [hbase st s1 n1 h1, hbase _ s2 n2 h2]
    unfold availabilityPubs contactPubs batteryPubs
    rw [ha, hstate, hpb, hpbat]
  · intro st byCode now n ha he hc hb
    rw [hbase st byCode now he]
    simp [availabilityPubs, contactPubs, batteryPubs, ha, hc, hb]
  · intro st byCode now b ha he hc hb
    rw [hbase st byCode now he]
    simp [availabilityPubs, contactPubs, batteryPubs, ha, hc, hb]
  · intro st now ha
    have hc : pick_boolean [("doorcontact_state", JVal.jint 1), ("battery_percentage", JVal.jint 87)]
        = some true := by decide
    have hb : pick_battery [("doorcontact_state", JVal.jint 1), ("battery_percentage", JVal.jint 87)]
        = some 87 := by decide
    constructor
    · rw [hbase st _ now (by decide)]
      simp [availabilityPubs, contactPubs, batteryPubs, ha, hc, hb]
      decide
    · unfold tick
      simp

/-- Witness for C8 from a concrete online state at time 7. -/
theorem publish_unconditional_per_tick_witness :
    (⟨0, true⟩ : LoopState).availOnline = true
    ∧ (tick ⟨0, true⟩
        [("doorcontact_state", JVal.jint 1), ("battery_percentage", JVal.jint 87)] 7).2
        = [Pub.state "ON", Pub.battery "87"] :=
  ⟨rfl, (publish_unconditional_per_tick.2.2.2.2 ⟨0, true⟩ 7 rfl).1⟩

theorem pySortedPairs_perm_eq {l1 l2 : List (String × String)} (h : l1.Perm l2) :
    pySortedPairs l1 = pySortedPairs l2 :=
  List.eq_of_perm_of_sorted
    ((List.perm_insertionSort pairLE l1).trans
      (h.trans (List.perm_insertionSort pairLE l2).symm))
    (List.sorted_insertionSort pairLE l1)
    (List.sorted_insertionSort pairLE l2)

theorem buildQuery_perm {p1 p2 : List (String × PyPrim)} (h : p1.Perm p2) :
    buildQuery p1 = buildQuery p2 := by
  have hm : (p1.map fun kv => (kv.1, kv.2.str)).Perm
      (p2.map fun kv => (kv.1, kv.2.str)) := h.map _
  have hlen := h.length_eq
  have hiff : p1.isEmpty = p2.isEmpty := by
    cases p1 <;> cases p2 <;> simp_all
  unfold buildQuery
  rw [pySortedPairs_perm_eq hm, hiff]

/-- C1: the signature `_request` computes matches the reference
definition, step for step: the body hash of the empty string for
GET/bodyless requests, the string-to-sign with its permanently blank
third line, the HMAC message with the token segment inserted exactly when
a token is in force and omitted entirely otherwise, and the upper-cased
hex HMAC under the client secret; identical inputs give an identical
signature since the signer is a pure function of its arguments. -/
theorem sig_v2_matches_reference :
    (∀ (sha256hex : String → String) (hmacSha256hex : String → String → String)
        (clientId clientSecret method path : String)
        (params : List (String × PyPrim)) (body : Option String)
        (t nonce : String) (useToken : Bool) (token : Option String),
      requestSignature sha256hex hmacSha256hex clientId clientSecret method path
          params body t nonce useToken token
        = specSignature sha256hex hmacSha256hex clientId clientSecret
            (pyUpper method) (buildFullPath path params) body t nonce
            (if useToken ∧ strTruthy token then token else none))
    ∧ (∀ (m : String) (body : Option String),
        bodyString "GET" body = "" ∧ bodyString m none = "")
    ∧ (∀ (clientId t nonce s2s : String) (token : Option String),
        signMessage clientId false token t nonce s2s = clientId ++ t ++ nonce ++ s2s
        ∧ signMessage clientId true none t nonce s2s = clientId ++ t ++ nonce ++ s2s) := by
  refine ⟨?_, ?_, ?_⟩
  · intro sha hmac cid sec method path params body t nonce useToken token
    by_cases h : useToken ∧ strTruthy token
    · cases token with
      | none => simp [strTruthy] at h
      | some s =>
        simp [requestSignature, specSignature, signMessage, stringToSign, bodyString, h]
    · simp [requestSignature, specSignature, signMessage, stringToSign, bodyString, h]
  · intro m body
    constructor <;> simp [bodyString]
  · intro cid t nonce s2s token
    constructor <;> simp [signMessage, strTruthy]

/-- C7: query canonicalisation is order-independent. Two parameter dicts
that are permutations of each other build the same path-with-query, hence
the same signature for fixed timestamp, nonce and token state; and the
canonical query has its keys in sorted order. -/
theorem query_order_independence :
    ∀ (p1 p2 : List (String × PyPrim)) (path : String),
      p1.Perm p2 →
      buildFullPath path p1 = buildFullPath path p2
      ∧ (∀ (sha256hex : String → String) (hmacSha256hex : String → String → String)
          (clientId clientSecret method : String) (body : Option String)
          (t nonce : String) (useToken : Bool) (token : Option String),
          requestSignature sha256hex hmacSha256hex clientId clientSecret method path
              p1 body t nonce useToken token
            = requestSignature sha256hex hmacSha256hex clientId clientSecret method path
                p2 body t nonce useToken token)
      ∧ (pySortedPairs (p1.map fun kv => (kv.1, kv.2.str))).Pairwise
          (fun a b => a.1 ≤ b.1) := by
  intro p1 p2 path h
  have hfp : buildFullPath path p1 = buildFullPath path p2 := by
    unfold buildFullPath
    rw [buildQuery_perm h]
  refine ⟨hfp, ?_, ?_⟩
  · intro sha hmac cid sec method body t nonce ut tok
    unfold requestSignature
    rw [hfp]
  · exact (List.sorted_insertionSort pairLE _).imp
      (fun hab => hab.elim le_of_lt (fun h2 => le_of_eq h2.1))

/-- Witness for C7 at the two permuted dicts from the spec example. -/
theorem query_order_independence_witness :
    ([("b", PyPrim.pint 2), ("a", PyPrim.pint 1)] : List (String × PyPrim)).Perm
        [("a", PyPrim.pint 1), ("b", PyPrim.pint 2)]
    ∧ buildFullPath "/v1.0/devices" [("b", PyPrim.pint 2), ("a", PyPrim.pint 1)]
      = buildFullPath "/v1.0/devices" [("a", PyPrim.pint 1), ("b", PyPrim.pint 2)] :=
  ⟨List.Perm.swap _ _ _,
    (query_order_independence _ _ "/v1.0/devices" (List.Perm.swap _ _ _)).1⟩

theorem connectTokenUpdate_wellFormed (tok : Option JVal) (data : JVal)
    (h : resultWellFormed data = true) :
    connectTokenUpdate tok data = .ok (tokenAfterConnect tok data) := by
  unfold connectTokenUpdate tokenAfterConnect successTokenOf
  unfold resultWellFormed at h
  by_cases hcond : data.isDict ∧ pyTruthy? (data.get "success")
  · rw [if_pos hcond] at h
    rw [if_pos hcond, if_pos hcond]
    cases hres : (data.get "result").getD (.jobj []) with
    | jobj fields =>
      cases hlk : fields.lookup "access_token" with
      | some t => by_cases htr : t.truthy <;> simp [hlk, htr]
      | none => simp [hlk]
    | jnull => simp_all
    | jbool b => simp_all
    | jint n => simp_all
    | jfloat q => simp_all
    | jstr s => simp_all
    | jarr items => simp_all
  · rw [if_neg hcond, if_neg hcond]

theorem handleResponse_failure (o : HttpOutcome) (h : isFailureOutcome o = true) :
    failureShaped (handleResponse o) := by
  cases o with
  | netError m => exact ⟨rfl, rfl, rfl⟩
  | response st body text =>
    cases body with
    | none => exact ⟨rfl, rfl, rfl⟩
    | some j => simp [isFailureOutcome] at h

theorem connectTokenUpdate_failureShaped (tok : Option JVal) (d : JVal)
    (h : d.get "success" = some (.jbool false)) :
    connectTokenUpdate tok d = .ok tok := by
  unfold connectTokenUpdate
  rw [if_neg]
  intro hc
  rw [h] at hc
  simp [pyTruthy?, JVal.truthy] at hc

theorem connectSucceeded_of_failureShaped (d : JVal)
    (h : d.get "success" = some (.jbool false)) :
    connectSucceeded d = false := by
  unfold connectSucceeded
  rw [h]
  simp [pyTruthy?, JVal.truthy]

theorem pyRequest_no_refresh (oracle : Nat → HttpOutcome) (k : Nat)
    (tok : Option JVal) (path : String) (useToken retryFlag : Bool)
    (h : ¬(useToken ∧ (handleResponse (oracle k)).isDict
        ∧ pyEqIntOpt ((handleResponse (oracle k)).get "code") 1010 ∧ retryFlag)) :
    pyRequest oracle k tok path useToken retryFlag
      = .ok (tok, handleResponse (oracle k), k + 1, [⟨path, useToken⟩]) := by
  unfold pyRequest
  rw [if_neg h]

theorem pyRequest_refresh_ok (oracle : Nat → HttpOutcome) (k : Nat)
    (tok : Option JVal) (path : String)
    (h1010 : (handleResponse (oracle k)).isDict
      ∧ pyEqIntOpt ((handleResponse (oracle k)).get "code") 1010)
    (hwf : resultWellFormed (handleResponse (oracle (k + 1))) = true)
    (hsucc : connectSucceeded (handleResponse (oracle (k + 1))) = true) :
    pyRequest oracle k tok path true true
      = .ok (tokenAfterConnect tok (handleResponse (oracle (k + 1))),
             handleResponse (oracle (k + 2)), k + 3,
             [⟨path, true⟩, ⟨tokenEndpoint, false⟩, ⟨path, true⟩]) := by
  unfold pyRequest connectRun requestOnce
  rw [if_pos ⟨by simp, h1010.1, h1010.2, by simp⟩]
  simp only []
  rw [connectTokenUpdate_wellFormed tok _ hwf]
  simp only []
  rw [if_pos hsucc]
  have : k + 1 + 1 + 1 = k + 3 := by omega
  rw [this]
  rfl

theorem pyRequest_refresh_fail (oracle : Nat → HttpOutcome) (k : Nat)
    (tok : Option JVal) (path : String)
    (h1010 : (handleResponse (oracle k)).isDict
      ∧ pyEqIntOpt ((handleResponse (oracle k)).get "code") 1010)
    (hwf : resultWellFormed (handleResponse (oracle (k + 1))) = true)
    (hsucc : connectSucceeded (handleResponse (oracle (k + 1))) = false) :
    pyRequest oracle k tok path true true
      = .ok (tokenAfterConnect tok (handleResponse (oracle (k + 1))),
             handleResponse (oracle k), k + 2,
             [⟨path, true⟩, ⟨tokenEndpoint, false⟩]) := by
  unfold pyRequest connectRun requestOnce
  rw [if_pos ⟨by simp, h1010.1, h1010.2, by simp⟩]
  simp only []
  rw [connectTokenUpdate_wellFormed tok _ hwf]
  simp only []
  rw [if_neg (by simp [hsucc])]

theorem pyRequest_cond_error (oracle : Nat → HttpOutcome) (k : Nat)
    (tok : Option JVal) (path : String) (e : String)
    (h1010 : (handleResponse (oracle k)).isDict
      ∧ pyEqIntOpt ((handleResponse (oracle k)).get "code") 1010)
    (hct : connectTokenUpdate tok (handleResponse (oracle (k + 1))) = .error e) :
    pyRequest oracle k tok path true true = .error e := by
  unfold pyRequest connectRun requestOnce
  rw [if_pos ⟨by simp, h1010.1, h1010.2, by simp⟩]
  simp only [hct]

theorem pyRequest_cond_ok (oracle : Nat → HttpOutcome) (k : Nat)
    (tok tok2 : Option JVal) (path : String)
    (h1010 : (handleResponse (oracle k)).isDict
      ∧ pyEqIntOpt ((handleResponse (oracle k)).get "code") 1010)
    (hct : connectTokenUpdate tok (handleResponse (oracle (k + 1))) = .ok tok2) :
    pyRequest oracle k tok path true true
      = if connectSucceeded (handleResponse (oracle (k + 1)))
        then .ok (tok2, handleResponse (oracle (k + 2)), k + 3,
          [⟨path, true⟩, ⟨tokenEndpoint, false⟩, ⟨path, true⟩])
        else .ok (tok2, handleResponse (oracle k), k + 2,
          [⟨path, true⟩, ⟨tokenEndpoint, false⟩]) := by
  unfold pyRequest connectRun requestOnce
  rw [if_pos ⟨by simp, h1010.1, h1010.2, by simp⟩]
  simp only [hct]
  split
  · rfl
  · rfl

/-- C2 (amended): on a `get` whose first response is a dict with
`code == 1010`, provided the refresh response is well-formed (when it is a
success dict, its `result` field, if present, is itself a dict), the
client performs exactly one re-authentication; the original request is
retried exactly once with retry disabled iff the re-authentication
succeeded, and a failed re-authentication returns the token-invalid
response; a 1010 on the retried request is returned as-is. Every run of
`_request` makes at most three HTTP calls, so the recursion depth is
bounded by 2. The well-formedness proviso is forced by the
counterexample: a success-shaped refresh response with a non-dict
`result` makes the code raise instead. -/
theorem token_refresh_retry_amended :
    (∀ (oracle : Nat → HttpOutcome) (tok : Option JVal) (path : String),
      path ≠ tokenEndpoint →
      ((handleResponse (oracle 0)).isDict
        ∧ pyEqIntOpt ((handleResponse (oracle 0)).get "code") 1010) →
      resultWellFormed (handleResponse (oracle 1)) = true →
      ∃ tok2 d k2 tr, apiGet oracle tok path = .ok (tok2, d, k2, tr)
        ∧ (tr.filter fun c => c.path == tokenEndpoint).length = 1
        ∧ (tr.filter fun c => c.path == path).length
            = (if connectSucceeded (handleResponse (oracle 1)) then 2 else 1)
        ∧ d = (if connectSucceeded (handleResponse (oracle 1))
                then handleResponse (oracle 2) else handleResponse (oracle 0))
        ∧ tr.length ≤ 3)
    ∧ (∀ (oracle : Nat → HttpOutcome) (k : Nat) (tok : Option JVal) (path : String)
        (useToken retryFlag : Bool),
        match pyRequest oracle k tok path useToken retryFlag with
        | .ok (_, _, k2, tr) => tr.length ≤ 3 ∧ k2 = k + tr.length
        | .error _ => True) := by
  constructor
  · intro oracle tok path hpath h1010 hwf
    have hne1 : (path == tokenEndpoint) = false := beq_eq_false_iff_ne.mpr hpath
    have hne2 : (tokenEndpoint == path) = false :=
      beq_eq_false_iff_ne.mpr (Ne.symm hpath)
    cases hsucc : connectSucceeded (handleResponse (oracle 1)) with
    | true =>
      refine ⟨_, _, _, _, pyRequest_refresh_ok oracle 0 tok path h1010 hwf hsucc, ?_, ?_, ?_, ?_⟩
      · simp [List.filter, hne1, hne2]
      · simp [List.filter, hne1, hne2]
      · simp
      · simp
    | false =>
      refine ⟨_, _, _, _, pyRequest_refresh_fail oracle 0 tok path h1010 hwf hsucc, ?_, ?_, ?_, ?_⟩
      · simp [List.filter, hne1, hne2]
      · simp [List.filter, hne1, hne2]
      · simp
      · simp
  · intro oracle k tok path ut rf
    by_cases hcond : ut ∧ (handleResponse (oracle k)).isDict
        ∧ pyEqIntOpt ((handleResponse (oracle k)).get "code") 1010 ∧ rf
    · obtain ⟨hut, hd, hc, hrf⟩ := hcond
      cases hut
      cases hrf
      cases hct : connectTokenUpdate tok (handleResponse (oracle (k + 1))) with
      | error e =>
        rw [pyRequest_cond_error oracle k tok path e ⟨hd, hc⟩ hct]
        exact trivial
      | ok tok2 =>
        rw [pyRequest_cond_ok oracle k tok tok2 path ⟨hd, hc⟩ hct]
        cases hcs : connectSucceeded (handleResponse (oracle (k + 1))) with
        | true => simp
        | false => simp
    · rw [pyRequest_no_refresh oracle k tok path ut rf hcond]
      exact ⟨by simp, by simp⟩

/-- Counterexample to C2 as stated: a 1010 response followed by a
refresh response that reports success but carries a non-dict `result`.
`get` then neither retries the original request nor returns the
token-invalid response: the `result.get` inside `connect` raises an
`AttributeError` that propagates to the caller. -/
theorem token_refresh_retry_counterexample :
    apiGet faultyRefreshOracle none "/v2.0/cloud/thing/dev1/shadow/properties"
      = .error "AttributeError" := rfl

/-- Witness for the amended C2 on a concrete successful refresh-and-retry. -/
theorem token_refresh_retry_amended_witness :
    ("/v2.0/cloud/thing/dev1/shadow/properties" ≠ tokenEndpoint)
    ∧ ((handleResponse (goodRefreshOracle 0)).isDict
        ∧ pyEqIntOpt ((handleResponse (goodRefreshOracle 0)).get "code") 1010)
    ∧ resultWellFormed (handleResponse (goodRefreshOracle 1)) = true
    ∧ (∃ tok2 d k2 tr,
        apiGet goodRefreshOracle none "/v2.0/cloud/thing/dev1/shadow/properties"
          = .ok (tok2, d, k2, tr)
        ∧ (tr.filter fun c => c.path == tokenEndpoint).length = 1
        ∧ (tr.filter fun c => c.path == "/v2.0/cloud/thing/dev1/shadow/properties").length
            = (if connectSucceeded (handleResponse (goodRefreshOracle 1)) then 2 else 1)
        ∧ d = (if connectSucceeded (handleResponse (goodRefreshOracle 1))
                then handleResponse (goodRefreshOracle 2)
                else handleResponse (goodRefreshOracle 0))
        ∧ tr.length ≤ 3) :=
  ⟨by decide, ⟨rfl, rfl⟩, rfl,
    token_refresh_retry_amended.1 goodRefreshOracle none
      "/v2.0/cloud/thing/dev1/shadow/properties" (by decide) ⟨rfl, rfl⟩ rfl⟩

/-- C4: transport-level failures never escape `_request` as exceptions:
a raised request or a non-JSON body is converted at its call site into a
dict carrying `success=False`, a `code` and a diagnostic message, and a
run in which every call fails at transport level returns such a dict
(leaving the held token untouched) for any flag combination. -/
theorem transport_failures_tagged :
    (∀ o : HttpOutcome, isFailureOutcome o = true → failureShaped (handleResponse o))
    ∧ (∀ (oracle : Nat → HttpOutcome) (k : Nat) (tok : Option JVal) (path : String)
        (useToken retryFlag : Bool),
        (∀ n, isFailureOutcome (oracle n) = true) →
        match pyRequest oracle k tok path useToken retryFlag with
        | .ok (tok2, d, _, _) => tok2 = tok ∧ failureShaped d
        | .error _ => False) := by
  refine ⟨handleResponse_failure, ?_⟩
  intro oracle k tok path ut rf hall
  have hd := handleResponse_failure (oracle k) (hall k)
  have hc := handleResponse_failure (oracle (k + 1)) (hall (k + 1))
  by_cases hcond : ut ∧ (handleResponse (oracle k)).isDict
      ∧ pyEqIntOpt ((handleResponse (oracle k)).get "code") 1010 ∧ rf
  · obtain ⟨hut, hdd, hcc, hrf⟩ := hcond
    cases hut
    cases hrf
    have hct : connectTokenUpdate tok (handleResponse (oracle (k + 1))) = .ok tok :=
      connectTokenUpdate_failureShaped tok _ hc.1
    rw [pyRequest_cond_ok oracle k tok tok path ⟨hdd, hcc⟩ hct,
      if_neg (by simp [connectSucceeded_of_failureShaped _ hc.1])]
    exact ⟨rfl, hd⟩
  · rw [pyRequest_no_refresh oracle k tok path ut rf hcond]
    exact ⟨rfl, hd⟩

/-- Witness for C4 on an oracle where every call raises. -/
theorem transport_failures_tagged_witness :
    (∀ n, isFailureOutcome (allFailOracle n) = true)
    ∧ (match pyRequest allFailOracle 0 none "/v1.0/devices" true true with
       | .ok (tok2, d, _, _) => tok2 = none ∧ failureShaped d
       | .error _ => False) :=
  ⟨fun _ => rfl,
    transport_failures_tagged.2 allFailOracle 0 none "/v1.0/devices" true true (fun _ => rfl)⟩

/-- C9 (amended): `connect` replaces the held access token exactly when
the response is a dict with truthy `success` and a truthy
`result.access_token`; on any other outcome the held token — including
the initial absent state — is unchanged and the tagged response is
returned without a fault, provided that when the response is a success
dict its `result` field, if present, is itself a dict. That proviso is
forced by the counterexample: a success response with a non-dict
`result` raises an `AttributeError` instead of returning. -/
theorem connect_token_frame_amended :
    ∀ (tok : Option JVal) (data : JVal),
      resultWellFormed data = true →
      connectOp tok data = .ok (tokenAfterConnect tok data, data)
      ∧ (successTokenOf data = none → connectOp tok data = .ok (tok, data)) := by
  intro tok data h
  have h1 : connectOp tok data = .ok (tokenAfterConnect tok data, data) := by
    unfold connectOp
    rw [connectTokenUpdate_wellFormed tok data h]
  refine ⟨h1, fun hn => ?_⟩
  rw [h1]
  unfold tokenAfterConnect
  rw [hn]

/-- Counterexample to C9 as stated: a success response lacking a token
but carrying a non-dict `result` makes `connect` raise instead of
returning the tagged response. -/
theorem connect_token_frame_counterexample :
    connectOp none (.jobj [("success", .jbool true), ("result", .jint 5)])
      = .error "AttributeError" := rfl

/-- Witness for the amended C9 on a concrete token-bearing success response. -/
theorem connect_token_frame_amended_witness :
    resultWellFormed (.jobj [("success", .jbool true),
        ("result", .jobj [("access_token", .jstr "abc")])]) = true
    ∧ connectOp none (.jobj [("success", .jbool true),
        ("result", .jobj [("access_token", .jstr "abc")])])
      = .ok (tokenAfterConnect none (.jobj [("success", .jbool true),
            ("result", .jobj [("access_token", .jstr "abc")])]),
          .jobj [("success", .jbool true),
            ("result", .jobj [("access_token", .jstr "abc")])]) :=
  ⟨rfl, (connect_token_frame_amended none (.jobj [("success", .jbool true),
      ("result", .jobj [("access_token", .jstr "abc")])]) rfl).1⟩

/-- C10: a `get` issued while no token is held is still sent, not failed
fast: the HMAC message omits the token segment, no `access_token` header
is attached, the response is returned as for an unauthenticated request,
and a `code=1010` response to such a token-less request still triggers
the one-shot refresh (the branch tests `use_token`, not a held token). -/
theorem tokenless_get_behavior :
    (∀ (clientId t nonce s2s : String),
        signMessage clientId true none t nonce s2s = clientId ++ t ++ nonce ++ s2s)
    ∧ (∀ (clientId sign t nonce bodyStr : String),
        (requestHeaders clientId sign t nonce true none bodyStr).lookup "access_token"
          = none)
    ∧ (∀ (oracle : Nat → HttpOutcome) (path : String),
        ¬((handleResponse (oracle 0)).isDict
            ∧ pyEqIntOpt ((handleResponse (oracle 0)).get "code") 1010) →
        pyRequest oracle 0 none path true true
          = .ok (none, handleResponse (oracle 0), 1, [⟨path, true⟩]))
    ∧ (∀ (oracle : Nat → HttpOutcome) (path : String),
        ((handleResponse (oracle 0)).isDict
          ∧ pyEqIntOpt ((handleResponse (oracle 0)).get "code") 1010) →
        resultWellFormed (handleResponse (oracle 1)) = true →
        ∃ tok2 d k2 tr,
          pyRequest oracle 0 none path true true = .ok (tok2, d, k2, tr)
          ∧ (⟨tokenEndpoint, false⟩ : CallRec) ∈ tr
          ∧ tr.head? = some ⟨path, true⟩) := by
  refine ⟨?_, ?_, ?_, ?_⟩
  · intro cid t nonce s2s
    simp [signMessage, strTruthy]
  · intro cid sign t nonce bodyStr
    unfold requestHeaders strTruthy
    by_cases h : bodyStr = "" <;> simp [h, List.lookup]
  · intro oracle path h
    exact pyRequest_no_refresh oracle 0 none path true true (by simpa using h)
  · intro oracle path h1010 hwf
    cases hsucc : connectSucceeded (handleResponse (oracle 1)) with
    | true =>
      exact ⟨_, _, _, _, pyRequest_refresh_ok oracle 0 none path h1010 hwf hsucc,
        by simp, by simp⟩
    | false =>
      exact ⟨_, _, _, _, pyRequest_refresh_fail oracle 0 none path h1010 hwf hsucc,
        by simp, by simp⟩

/-- Witness for C10: a token-less `get` meeting a 1010 response. -/
theorem tokenless_get_behavior_witness :
    ((handleResponse (goodRefreshOracle 0)).isDict
      ∧ pyEqIntOpt ((handleResponse (goodRefreshOracle 0)).get "code") 1010)
    ∧ resultWellFormed (handleResponse (goodRefreshOracle 1)) = true
    ∧ (∃ tok2 d k2 tr,
        pyRequest goodRefreshOracle 0 none "/v1.0/devices" true true = .ok (tok2, d, k2, tr)
        ∧ (⟨tokenEndpoint, false⟩ : CallRec) ∈ tr
        ∧ tr.head? = some ⟨"/v1.0/devices", true⟩) :=
  ⟨⟨rfl, rfl⟩, rfl,
    tokenless_get_behavior.2.2.2 goodRefreshOracle "/v1.0/devices" ⟨rfl, rfl⟩ rfl⟩
